import Mathlib

/-!
Verification development for the OpenPLC Orchestrator API service
(src/app/main.py). The certificate store, certificate validator,
connection registry, heartbeat protocol and the two transport adapters
(raw WebSocket endpoint and Socket.IO event channel) are embedded as
pure Lean functions; external collaborators (the X.509 parser of the
cryptography library, urllib percent-decoding, and filesystem write
failures) are abstracted into an environment record.
-/

namespace ApiSvc

/-- Result of extract_cn_from_certificate (main.py lines 38-53): the
parse may raise ValueError (modelled as parseError with the message),
or succeed returning the certificate subject CN attribute if present.
A CN attribute that is the empty string is falsy in Python, which the
callers check with a truthiness test. -/
inductive CnResult where
  | parseError (msg : String)
  | parsed (cn : Option String)
deriving DecidableEq

/-- External collaborators of the core: the X.509 parser (wrapped by
extract_cn_from_certificate), urllib.parse.unquote, and whether a
given write_text call raises (storage failure). -/
structure Env where
  extractCN : String → CnResult
  unquote : String → String
  saveFails : String → String → Bool

/-- The certificate store directory, modelled as an association list
from file name to file content with Python-dict-like update-in-place
semantics (the key invariant: one pinned certificate file per agent). -/
abbrev Store := List (String × String)

/-- Read the content stored under a key, none when no such file exists. -/
def Store.get : Store → String → Option String
  | [], _ => none
  | (k, v) :: rest, key => if k = key then some v else Store.get rest key

/-- Write content under a key, overwriting an existing entry in place
and appending a new entry otherwise. -/
def Store.put : Store → String → String → Store
  | [], key, content => [(key, content)]
  | (k, v) :: rest, key, content =>
      if k = key then (key, content) :: rest
      else (k, v) :: Store.put rest key content

/-- save_agent_certificate (main.py lines 56-61): writes the PEM text
to CERT_STORAGE_DIR slash agent_id dot crt. -/
def save_agent_certificate (store : Store) (agent_id : String) (cert_pem : String) : Store :=
  Store.put store (agent_id ++ ".crt") cert_pem

/-- get_agent_certificate_path (main.py lines 64-69) composed with the
read_text call of the validator (line 180): returns the stored PEM text
when the file agent_id dot crt exists, none otherwise. -/
def get_agent_certificate (store : Store) (agent_id : String) : Option String :=
  Store.get store (agent_id ++ ".crt")

/-- The global active_connections dict (main.py line 35): agent
identifier to session handle. Values are session handles (WebSocket
objects on the raw channel, Socket.IO sids on the event channel),
modelled uniformly as naturals. -/
abbrev Registry := List (String × Nat)

/-- Dict lookup: the value stored under a key. -/
def Registry.lookup : Registry → String → Option Nat
  | [], _ => none
  | (k, v) :: rest, key => if k = key then some v else Registry.lookup rest key

/-- Dict membership test, k in active_connections. -/
def Registry.hasKey : Registry → String → Bool
  | [], _ => false
  | (k, _) :: rest, key => if k = key then true else Registry.hasKey rest key

/-- Dict assignment active_connections at key becomes v: replaces the
entry in place when the key is present, appends otherwise. -/
def Registry.insert : Registry → String → Nat → Registry
  | [], key, v => [(key, v)]
  | (k, v0) :: rest, key, v =>
      if k = key then (key, v) :: rest
      else (k, v0) :: Registry.insert rest key v

/-- Dict deletion del active_connections at key. -/
def Registry.erase : Registry → String → Registry
  | [], _ => []
  | (k, v) :: rest, key => if k = key then rest else (k, v) :: Registry.erase rest key

/-- The scan of the Socket.IO disconnect handler (main.py lines
234-238): iterate the dict items in order and return the first key
whose value equals the given session handle. -/
def Registry.findByValue : Registry → Nat → Option String
  | [], _ => none
  | (k, v) :: rest, sid => if v = sid then some k else Registry.findByValue rest sid

/-- How many entries carry a given key; the dict invariant keeps this
at most one. -/
def Registry.countKey : Registry → String → Nat
  | [], _ => 0
  | (k, _) :: rest, key => (if k = key then 1 else 0) + Registry.countKey rest key

/-- Whitespace in the sense of the Python str.strip method, restricted
to the ASCII whitespace characters (the PEM alphabet contains no other
Unicode whitespace). -/
def pyIsSpace (c : Char) : Bool :=
  c == ' ' || c == '\t' || c == '\n' || c == '\r' || c == '\x0b' || c == '\x0c'

/-- The Python str.strip method with no argument: remove leading and
trailing whitespace. -/
def pyStrip (s : String) : String :=
  String.mk (((s.data.dropWhile pyIsSpace).reverse.dropWhile pyIsSpace).reverse)

/-- validate_client_certificate (main.py lines 166-188): extract the CN
of the presented certificate (any exception is caught and yields None),
reject when the CN is absent or falsy, look up the pinned certificate
for the CN, reject when no pin exists, and accept exactly when the two
PEM texts agree after strip. Every rejection path returns the same
value, none, with no distinguishing detail. -/
def validate_client_certificate (env : Env) (store : Store) (cert_pem : String) : Option String :=
  match env.extractCN cert_pem with
  | CnResult.parseError _ => none
  | CnResult.parsed none => none
  | CnResult.parsed (some cn) =>
      if cn = "" then none
      else
        match get_agent_certificate store cn with
        | none => none
        | some stored_cert =>
            if pyStrip cert_pem = pyStrip stored_cert then some cn else none

/-- Outcome of the certificate upload endpoint (main.py lines 115-163),
one constructor per HTTPException branch plus the success response. -/
inductive UploadResult where
  | badJson
  | badAgentId
  | badCertificate
  | malformedCertificate (msg : String)
  | missingCommonName
  | identityMismatch (provided cnFromCert : String)
  | storageFailure
  | success (agent_id : String)
deriving DecidableEq

/-- upload_agent_certificate (main.py lines 115-163). The request body
is modelled as none when the JSON parse fails, otherwise a pair of the
agent_id and certificate fields, each none when missing or not a
string; the empty string is falsy and equally rejected. The store is
threaded through and returned unchanged on every failure path. -/
def upload_agent_certificate (env : Env) (store : Store)
    (body : Option (Option String × Option String)) : UploadResult × Store :=
  match body with
  | none => (UploadResult.badJson, store)
  | some (agentField, certField) =>
      match agentField with
      | none => (UploadResult.badAgentId, store)
      | some agent_id =>
          if agent_id = "" then (UploadResult.badAgentId, store)
          else
            match certField with
            | none => (UploadResult.badCertificate, store)
            | some certificate =>
                if certificate = "" then (UploadResult.badCertificate, store)
                else
                  match env.extractCN certificate with
                  | CnResult.parseError msg => (UploadResult.malformedCertificate msg, store)
                  | CnResult.parsed none => (UploadResult.missingCommonName, store)
                  | CnResult.parsed (some cn) =>
                      if cn = "" then (UploadResult.missingCommonName, store)
                      else if cn ≠ agent_id then
                        (UploadResult.identityMismatch agent_id cn, store)
                      else if env.saveFails agent_id certificate then
                        (UploadResult.storageFailure, store)
                      else
                        (UploadResult.success agent_id,
                          save_agent_certificate store agent_id certificate)

/-- Certificate-header reconstruction of the raw WebSocket endpoint
(main.py lines 277-280): percent-decode, substitute every space with a
newline, then repair the two PEM boundary marker lines that the generic
substitution broke. -/
def ws_reconstruct_pem (unquote : String → String) (client_cert_header : String) : String :=
  let decoded_cert := unquote client_cert_header
  let s1 := decoded_cert.replace " " "\n"
  let s2 := s1.replace "-----BEGIN\nCERTIFICATE-----" "-----BEGIN CERTIFICATE-----"
  s2.replace "-----END\nCERTIFICATE-----" "-----END CERTIFICATE-----"

/-- Certificate-header reconstruction of the Socket.IO connect handler
(main.py lines 204-207): percent-decode, substitute every space with a
newline, then repair the two PEM boundary marker lines that the generic
substitution broke. -/
def sio_reconstruct_pem (unquote : String → String) (client_cert_header : String) : String :=
  let decoded_cert := unquote client_cert_header
  let s1 := decoded_cert.replace " " "\n"
  let s2 := s1.replace "-----BEGIN\nCERTIFICATE-----" "-----BEGIN CERTIFICATE-----"
  s2.replace "-----END\nCERTIFICATE-----" "-----END CERTIFICATE-----"

/-- Outcome of the authentication phase of the raw WebSocket endpoint,
before accept: either the connection is closed with a status code and a
reason, or it proceeds to accept. -/
inductive WsAuthResult where
  | closed (code : Nat) (reason : String)
  | accepted
deriving DecidableEq

/-- Authentication phase of websocket_endpoint (main.py lines 271-299):
an absent header means development mode and the connection is accepted
without validation; otherwise the header is reconstructed into PEM text
and validated, and a validation failure closes the connection with
policy-violation code 1008 and reason Invalid client certificate before
accept. The except branch (line 292) likewise closes with 1008 and a
reason; it is unreachable in this model because the reconstruction is a
total string function and the validator catches its own exceptions. -/
def websocket_auth (env : Env) (store : Store) (client_cert_header : String) : WsAuthResult :=
  if client_cert_header = "" then WsAuthResult.accepted
  else
    let client_cert_pem := ws_reconstruct_pem env.unquote client_cert_header
    match validate_client_certificate env store client_cert_pem with
    | none => WsAuthResult.closed 1008 "Invalid client certificate"
    | some _ => WsAuthResult.accepted

/-- Per-connection handler state of the raw WebSocket receive loop: the
local agent_id variable (main.py line 301, reassigned at line 312) and
the shared active_connections registry. -/
structure WsState where
  agent_id : Option String
  reg : Registry
deriving DecidableEq

/-- A reply sent with send_text on the raw channel: the JSON object of
main.py lines 318-323, whose topic field is the string heartbeat_ack
and whose payload carries the timestamp. -/
structure AckMessage where
  topic : String
  timestamp : String
deriving DecidableEq

/-- One iteration of the raw-channel receive loop on a successfully
decoded message (main.py lines 308-325). On topic heartbeat the local
agent_id is reassigned to the payload id field (even when that field is
absent or falsy), a truthy id upserts the registry with this
connection, and exactly one heartbeat_ack carrying the current server
timestamp is sent back on this connection; any other topic is only
logged. The timestamp string abstracts datetime.now().isoformat(). -/
def websocket_handle_message (ws : Nat) (now : String) (st : WsState)
    (topic : Option String) (payloadId : Option String) : WsState × List AckMessage :=
  if topic = some "heartbeat" then
    let agent_id := payloadId
    let reg :=
      match agent_id with
      | none => st.reg
      | some aid => if aid = "" then st.reg else Registry.insert st.reg aid ws
    ({ agent_id := agent_id, reg := reg }, [{ topic := "heartbeat_ack", timestamp := now }])
  else (st, [])

/-- An inbound frame on the raw channel: either text that json.loads or
the subsequent dict accesses fail on (malformed), or a decoded message
with its topic field and the id field of its payload, each none when
absent; telemetry fields are only logged and are not modelled. -/
inductive WsInbound where
  | malformed
  | msg (topic : Option String) (payloadId : Option String)
deriving DecidableEq

/-- How the raw-channel receive loop ended: the stream ran out
(WebSocketDisconnect) or an exception escaped an iteration (the generic
except branch at main.py line 331), as a json decode failure does. -/
inductive LoopExit where
  | disconnected
  | errored
deriving DecidableEq

/-- The receive loop of websocket_endpoint (main.py lines 303-325):
processes inbound frames in order, stopping at the end of the stream
(modelled as WebSocketDisconnect) or at the first malformed frame,
whose exception propagates out of the loop; frames after it are never
received. Returns the final handler state, the concatenated replies,
and how the loop ended. -/
def websocket_receive_loop (ws : Nat) (now : String) :
    WsState → List WsInbound → WsState × List AckMessage × LoopExit
  | st, [] => (st, [], LoopExit.disconnected)
  | st, WsInbound.malformed :: _ => (st, [], LoopExit.errored)
  | st, WsInbound.msg topic payloadId :: rest =>
      let out := websocket_handle_message ws now st topic payloadId
      let res := websocket_receive_loop ws now out.1 rest
      (res.1, out.2 ++ res.2.1, res.2.2)

/-- Cleanup run when the raw-channel handler exits, identical in the
WebSocketDisconnect branch (main.py lines 327-330) and in the generic
except branch (lines 331-334): when the local agent_id is truthy and
present as a key of the registry, that key is deleted, regardless of
which session the entry currently maps to. -/
def websocket_cleanup (st : WsState) : Registry :=
  match st.agent_id with
  | none => st.reg
  | some aid =>
      if aid = "" then st.reg
      else if Registry.hasKey st.reg aid then Registry.erase st.reg aid
      else st.reg

/-- The raw WebSocket endpoint end to end (main.py lines 258-334):
authentication phase, then on accept the receive loop over the inbound
frames followed by the exit-path cleanup. When authentication closes
the connection no frame is processed and the registry is untouched. -/
def websocket_endpoint (env : Env) (store : Store) (reg : Registry) (ws : Nat) (now : String)
    (client_cert_header : String) (inbound : List WsInbound) :
    WsAuthResult × Registry × List AckMessage :=
  match websocket_auth env store client_cert_header with
  | WsAuthResult.closed code reason => (WsAuthResult.closed code reason, reg, [])
  | WsAuthResult.accepted =>
      let res := websocket_receive_loop ws now { agent_id := none, reg := reg } inbound
      (WsAuthResult.accepted, websocket_cleanup res.1, res.2.1)

/-- Outcome of the Socket.IO connect handler: returning False refuses
the connection at the accept step; otherwise the connection is
established, bound to the validated agent when a certificate was
presented and to none in development mode. -/
inductive SioConnectResult where
  | refused
  | connected (bound : Option String)
deriving DecidableEq

/-- The Socket.IO connect handler (main.py lines 191-226): an absent
certificate header means development mode and the connection proceeds
unauthenticated; otherwise the header is reconstructed and validated,
a failure refuses the connection by returning False with the registry
untouched, and a success upserts the registry mapping the validated
agent identifier to this session id. -/
def connect (env : Env) (store : Store) (reg : Registry) (sid : Nat)
    (client_cert_header : String) : SioConnectResult × Registry :=
  if client_cert_header = "" then (SioConnectResult.connected none, reg)
  else
    let client_cert_pem := sio_reconstruct_pem env.unquote client_cert_header
    match validate_client_certificate env store client_cert_pem with
    | none => (SioConnectResult.refused, reg)
    | some validated_agent_id =>
        (SioConnectResult.connected (some validated_agent_id),
          Registry.insert reg validated_agent_id sid)

/-- The Socket.IO disconnect handler (main.py lines 229-244): scan the
registry items in order for the first entry whose value is this session
id and delete that key; when no entry matches, the registry is left
unchanged. -/
def disconnect (reg : Registry) (sid : Nat) : Registry :=
  match Registry.findByValue reg sid with
  | some agent_id => Registry.erase reg agent_id
  | none => reg

/-- A Socket.IO emit: event name, the timestamp field of its data
object, and the room it is addressed to. -/
structure SioEmit where
  event : String
  timestamp : String
  room : Nat
deriving DecidableEq

/-- The Socket.IO heartbeat handler (main.py lines 247-255): logs the
telemetry fields of the event data and emits exactly one heartbeat_ack
carrying the current server timestamp to the originating session only
(room equals sid). It never touches the registry; the data payload,
including any id field, does not influence the result. -/
def heartbeat (reg : Registry) (sid : Nat) (_dataId : Option String) (now : String) :
    Registry × List SioEmit :=
  (reg, [{ event := "heartbeat_ack", timestamp := now, room := sid }])

theorem Store.get_put_self (s : Store) (k v : String) :
    Store.get (Store.put s k v) k = some v := by
  induction s with
  | nil => simp [Store.put, Store.get]
  | cons hd tl ih =>
      obtain ⟨k0, v0⟩ := hd
      by_cases h : k0 = k
      · simp [Store.put, Store.get, h]
      · simp [Store.put, Store.get, h, ih]

theorem Registry.lookup_insert_self (r : Registry) (k : String) (v : Nat) :
    Registry.lookup (Registry.insert r k v) k = some v := by
  induction r with
  | nil => simp [Registry.insert, Registry.lookup]
  | cons hd tl ih =>
      obtain ⟨k0, v0⟩ := hd
      by_cases h : k0 = k
      · simp [Registry.insert, Registry.lookup, h]
      · simp [Registry.insert, Registry.lookup, h, ih]

theorem Registry.countKey_insert (r : Registry) (k : String) (v : Nat)
    (h : Registry.countKey r k ≤ 1) :
    Registry.countKey (Registry.insert r k v) k = 1 := by
  induction r with
  | nil => simp [Registry.insert, Registry.countKey]
  | cons hd tl ih =>
      obtain ⟨k0, v0⟩ := hd
      by_cases hk : k0 = k
      · subst hk
        simp [Registry.countKey] at h
        have h0 : Registry.countKey tl k0 = 0 := by omega
        simp [Registry.insert, Registry.countKey, h0]
      · simp [Registry.countKey, hk] at h
        simp [Registry.insert, Registry.countKey, hk, ih h]

/-- Concrete environment used by witnesses: the parser recognises the
text PEM-A as a certificate with CN A and rejects everything else;
percent-decoding is the identity; persistence never fails. -/
def envA : Env :=
  { extractCN := fun c =>
      if c = "PEM-A" then CnResult.parsed (some "A") else CnResult.parseError "bad",
    unquote := fun s => s,
    saveFails := fun _ _ => false }

/-- Concrete environment used by witnesses: the parser rejects every
input, so certificate validation always fails. -/
def envErr : Env :=
  { extractCN := fun _ => CnResult.parseError "bad",
    unquote := fun s => s,
    saveFails := fun _ _ => false }

/-- C1: validate_client_certificate returns the agent identifier a
exactly when the presented PEM parses to a certificate whose CN is a
(truthy), a pinned certificate is stored for a, and the presented and
pinned texts are equal after stripping surrounding whitespace; in every
other case the result is the single uniform rejection value none, the
return type carrying no distinguishing detail. -/
theorem c1_validate_accepts_iff_pinned_match (env : Env) (store : Store)
    (cert_pem a : String) :
    validate_client_certificate env store cert_pem = some a ↔
      (env.extractCN cert_pem = CnResult.parsed (some a) ∧ a ≠ "" ∧
        ∃ stored, get_agent_certificate store a = some stored ∧
          pyStrip cert_pem = pyStrip stored) := by
  constructor
  · intro h
    cases hcn : env.extractCN cert_pem with
    | parseError msg => simp [validate_client_certificate, hcn] at h
    | parsed cnOpt =>
      cases cnOpt with
      | none => simp [validate_client_certificate, hcn] at h
      | some c =>
        by_cases hc : c = ""
        · simp [validate_client_certificate, hcn, hc] at h
        · cases hg : get_agent_certificate store c with
          | none => simp [validate_client_certificate, hcn, hc, hg] at h
          | some stored =>
            by_cases he : pyStrip cert_pem = pyStrip stored
            · simp [validate_client_certificate, hcn, hc, hg, he] at h
              subst h
              exact ⟨rfl, hc, stored, hg, he⟩
            · simp [validate_client_certificate, hcn, hc, hg, he] at h
  · rintro ⟨h1, h2, stored, h3, h4⟩
    simp [validate_client_certificate, h1, h2, h3, h4]

/-- C6: the certificate-header reconstruction routines of the two
transport adapters compute the same function: for every percent-decoder
and every header value, the raw-channel and event-channel
implementations produce identical PEM text. -/
theorem c6_reconstruct_pem_routines_equal (unq : String → String) (header : String) :
    ws_reconstruct_pem unq header = sio_reconstruct_pem unq header := rfl

/-- C7: on both transports every message with topic heartbeat is
answered with exactly one reply whose topic or event name is
heartbeat_ack and whose payload carries the current server timestamp
(the abstraction of datetime.now().isoformat()); the raw channel sends
it with send_text on the receiving connection and the event channel
emits it with room equal to the originating session id only. -/
theorem c7_heartbeat_single_ack (ws sid : Nat) (now : String) (st : WsState)
    (payloadId dataId : Option String) (reg : Registry) :
    (websocket_handle_message ws now st (some "heartbeat") payloadId).2
        = [{ topic := "heartbeat_ack", timestamp := now }]
    ∧ heartbeat reg sid dataId now
        = (reg, [{ event := "heartbeat_ack", timestamp := now, room := sid }]) := by
  constructor
  · cases payloadId with
    | none => simp [websocket_handle_message]
    | some aid => simp [websocket_handle_message]
  · rfl

/-- C2: a registration request whose certificate CN differs from the
supplied agent_id fails with the identity-mismatch error citing both
values and leaves the certificate store unchanged; and in general the
store returned by upload_agent_certificate differs from the input store
only when every check passed (well-formed body, truthy fields,
certificate parsed with a CN equal to the agent identifier, persistence
succeeded) and the operation reported success. -/
theorem c2_mismatch_never_writes (env : Env) (store : Store)
    (agent_id certificate cn : String)
    (ha : agent_id ≠ "") (hc : certificate ≠ "")
    (hcn : env.extractCN certificate = CnResult.parsed (some cn))
    (hcn0 : cn ≠ "") (hne : cn ≠ agent_id) :
    upload_agent_certificate env store (some (some agent_id, some certificate))
        = (UploadResult.identityMismatch agent_id cn, store)
    ∧ ∀ body : Option (Option String × Option String),
        (upload_agent_certificate env store body).2 = store ∨
        ∃ aid cert, body = some (some aid, some cert) ∧ aid ≠ "" ∧ cert ≠ ""
          ∧ env.extractCN cert = CnResult.parsed (some aid)
          ∧ env.saveFails aid cert = false
          ∧ upload_agent_certificate env store body
              = (UploadResult.success aid, save_agent_certificate store aid cert) := by
  constructor
  · simp [upload_agent_certificate, ha, hc, hcn, hcn0, hne]
  · intro body
    rcases body with _ | ⟨af, cf⟩
    · left; rfl
    rcases af with _ | aid
    · left; rfl
    by_cases haid : aid = ""
    · left; simp [upload_agent_certificate, haid]
    rcases cf with _ | cert
    · left; simp [upload_agent_certificate, haid]
    by_cases hcert : cert = ""
    · left; simp [upload_agent_certificate, haid, hcert]
    cases hext : env.extractCN cert with
    | parseError m => left; simp [upload_agent_certificate, haid, hcert, hext]
    | parsed cnOpt =>
      cases cnOpt with
      | none => left; simp [upload_agent_certificate, haid, hcert, hext]
      | some c =>
        by_cases hc0 : c = ""
        · left; simp [upload_agent_certificate, haid, hcert, hext, hc0]
        by_cases hca : c = aid
        · subst hca
          cases hsf : env.saveFails c cert with
          | true => left; simp [upload_agent_certificate, haid, hcert, hext, hc0, hsf]
          | false =>
              right
              exact ⟨c, cert, rfl, haid, hcert, hext, hsf,
                by simp [upload_agent_certificate, haid, hcert, hext, hc0, hsf]⟩
        · left; simp [upload_agent_certificate, haid, hcert, hext, hc0, hca]

/-- Witness for C2 at a concrete input: agent B uploads the certificate
whose CN is A; the result is the identity-mismatch error and the empty
store is unchanged. -/
theorem c2_witness :
    upload_agent_certificate envA [] (some (some "B", some "PEM-A"))
      = (UploadResult.identityMismatch "B" "A", []) :=
  (c2_mismatch_never_writes envA [] "B" "PEM-A" "A"
    (by decide) (by decide) (by decide) (by decide) (by decide)).1

/-- C5: for a connection presenting a certificate header that fails
validation, the raw WebSocket endpoint closes the connection with
policy-violation code 1008 and a human-readable reason before
processing any frame, the Socket.IO connect handler refuses the
connection by returning False, and on both transports the connection
registry is exactly as it was before the attempt. -/
theorem c5_validation_failure_rejected_registry_untouched
    (env : Env) (store : Store) (reg : Registry) (ws sid : Nat) (now : String)
    (header : String) (inbound : List WsInbound)
    (hh : header ≠ "")
    (hv : validate_client_certificate env store
        (ws_reconstruct_pem env.unquote header) = none) :
    websocket_endpoint env store reg ws now header inbound
        = (WsAuthResult.closed 1008 "Invalid client certificate", reg, [])
    ∧ connect env store reg sid header = (SioConnectResult.refused, reg) := by
  have hv2 : validate_client_certificate env store
      (sio_reconstruct_pem env.unquote header) = none := hv
  constructor
  · simp [websocket_endpoint, websocket_auth, hh, hv]
  · simp [connect, hh, hv2]

/-- Witness for C5 at a concrete input: the parser rejects every
certificate, so the header H fails validation; the raw channel closes
with 1008 and the event channel refuses, the registry keeping its one
unrelated entry. -/
theorem c5_witness :
    websocket_endpoint envErr [] [("X", 7)] 3 "T" "H"
        [WsInbound.msg (some "heartbeat") (some "A")]
      = (WsAuthResult.closed 1008 "Invalid client certificate", [("X", 7)], [])
    ∧ connect envErr [] [("X", 7)] 5 "H" = (SioConnectResult.refused, [("X", 7)]) :=
  c5_validation_failure_rejected_registry_untouched envErr [] [("X", 7)] 3 5 "T" "H"
    [WsInbound.msg (some "heartbeat") (some "A")] (by decide) rfl

/-- C9: registering a certificate whose CN equals the supplied agent
identifier succeeds, and looking the identifier up in the resulting
store returns PEM text identical to the text that was registered. -/
theorem c9_register_then_lookup_identity (env : Env) (store : Store) (aid cert : String)
    (ha : aid ≠ "") (hc : cert ≠ "")
    (hcn : env.extractCN cert = CnResult.parsed (some aid))
    (hsf : env.saveFails aid cert = false) :
    (upload_agent_certificate env store (some (some aid, some cert))).1
        = UploadResult.success aid
    ∧ get_agent_certificate
        (upload_agent_certificate env store (some (some aid, some cert))).2 aid
        = some cert := by
  have h : upload_agent_certificate env store (some (some aid, some cert))
      = (UploadResult.success aid, save_agent_certificate store aid cert) := by
    simp [upload_agent_certificate, ha, hc, hcn, hsf]
  rw [h]
  exact ⟨rfl, Store.get_put_self store (aid ++ ".crt") cert⟩

/-- Witness for C9 at a concrete input: agent A registers the
certificate PEM-A whose CN is A into the empty store and the lookup
returns exactly PEM-A. -/
theorem c9_witness :
    (upload_agent_certificate envA [] (some (some "A", some "PEM-A"))).1
        = UploadResult.success "A"
    ∧ get_agent_certificate
        (upload_agent_certificate envA [] (some (some "A", some "PEM-A"))).2 "A"
        = some "PEM-A" :=
  c9_register_then_lookup_identity envA [] "A" "PEM-A"
    (by decide) (by decide) (by decide) (by decide)

/-- C10: on the raw channel a heartbeat whose payload id is absent or
falsy still yields exactly one heartbeat_ack reply, mutates no registry
entry, leaves the connection unbound (the local agent_id stays falsy),
and the disconnect cleanup of that state removes nothing. -/
theorem c10_idless_heartbeat_no_binding (ws : Nat) (now : String) (reg : Registry)
    (payloadId : Option String) (h : payloadId = none ∨ payloadId = some "") :
    websocket_handle_message ws now { agent_id := none, reg := reg }
        (some "heartbeat") payloadId
      = ({ agent_id := payloadId, reg := reg },
          [{ topic := "heartbeat_ack", timestamp := now }])
    ∧ websocket_cleanup { agent_id := payloadId, reg := reg } = reg := by
  rcases h with h | h <;> subst h <;>
    exact ⟨by simp [websocket_handle_message], by simp [websocket_cleanup]⟩

/-- Witness for C10 at a concrete input: a heartbeat with no id on a
registry holding an unrelated entry is acknowledged, the registry and
the unbound state survive, and cleanup removes nothing. -/
theorem c10_witness :
    websocket_handle_message 3 "T" { agent_id := none, reg := [("B", 4)] }
        (some "heartbeat") none
      = ({ agent_id := none, reg := [("B", 4)] },
          [{ topic := "heartbeat_ack", timestamp := "T" }])
    ∧ websocket_cleanup { agent_id := none, reg := [("B", 4)] } = [("B", 4)] :=
  c10_idless_heartbeat_no_binding 3 "T" [("B", 4)] none (Or.inl rfl)

/-- Counterexample to C3 as stated: on the event channel a heartbeat
arriving at session 5 and carrying the payload identifier A1 leaves the
registry without any entry for A1 — the Socket.IO heartbeat handler
never upserts the connection registry, so the property does not hold on
both transports. -/
theorem c3_counterexample :
    Registry.lookup (heartbeat [] 5 (some "A1") "T").1 "A1" = none := by decide

/-- C3 as amended: on the raw channel every heartbeat with a truthy
payload id upserts the registry mapping that identifier to the current
connection (re-entrant, installing the current session as the value);
on the event channel the heartbeat handler performs no registry
mutation, the registry being written instead at connect time with the
validated certificate CN. -/
theorem c3_amended_heartbeat_binding (ws sid : Nat) (now : String) (st : WsState)
    (aid : String) (ha : aid ≠ "") (reg : Registry) (dataId : Option String) :
    (websocket_handle_message ws now st (some "heartbeat") (some aid)).1
        = { agent_id := some aid, reg := Registry.insert st.reg aid ws }
    ∧ Registry.lookup (Registry.insert st.reg aid ws) aid = some ws
    ∧ (heartbeat reg sid dataId now).1 = reg :=
  ⟨by simp [websocket_handle_message, ha],
    Registry.lookup_insert_self st.reg aid ws, rfl⟩

/-- Witness for the amended C3 at a concrete input: a raw-channel
heartbeat with id A on connection 1 binds A to session 1, while the
event-channel heartbeat at session 5 leaves the registry unchanged. -/
theorem c3_witness :
    (websocket_handle_message 1 "T" { agent_id := none, reg := [] }
        (some "heartbeat") (some "A")).1
      = { agent_id := some "A", reg := [("A", 1)] }
    ∧ Registry.lookup (Registry.insert [] "A" 1) "A" = some 1
    ∧ (heartbeat [("B", 2)] 5 (some "A") "T").1 = [("B", 2)] :=
  c3_amended_heartbeat_binding 1 5 "T" { agent_id := none, reg := [] } "A"
    (by decide) [("B", 2)] (some "A")

/-- Counterexample to C4 as stated, on the raw channel: connection 1
binds A (registry maps A to 1), connection 2 then binds A (the entry is
replaced, A maps to 2), and the disconnect cleanup of the older
connection 1 — whose local agent_id is still A — deletes the entry even
though it maps to the newer session, so afterwards A maps to nothing
rather than to session 2 as the claim requires. -/
theorem c4_counterexample :
    (websocket_handle_message 1 "T1" { agent_id := none, reg := [] }
        (some "heartbeat") (some "A")).1
      = { agent_id := some "A", reg := [("A", 1)] }
    ∧ (websocket_handle_message 2 "T2" { agent_id := none, reg := [("A", 1)] }
        (some "heartbeat") (some "A")).1
      = { agent_id := some "A", reg := [("A", 2)] }
    ∧ websocket_cleanup { agent_id := some "A", reg := [("A", 2)] } = []
    ∧ Registry.lookup ([] : Registry) "A" = none := by decide

/-- C4 as amended: when a registry key was last written by the newer
connection, the registry holds exactly one entry for that identifier;
on the event channel the disconnect of the older session removes
nothing because the scan by session handle finds no entry; but on the
raw channel the cleanup of the older connection deletes the entry of
the identifier
whenever its locally bound identifier is still a registry key, even
though the entry maps to the newer session. -/
theorem c4_amended_disconnect_cleanup
    (reg : Registry) (sid : Nat) (st : WsState) (aid : String) (v : Nat)
    (h1 : Registry.findByValue reg sid = none)
    (h2 : st.agent_id = some aid) (h3 : aid ≠ "")
    (h4 : Registry.hasKey st.reg aid = true)
    (h5 : Registry.countKey reg aid ≤ 1) :
    disconnect reg sid = reg
    ∧ websocket_cleanup st = Registry.erase st.reg aid
    ∧ Registry.countKey (Registry.insert reg aid v) aid = 1 :=
  ⟨by simp [disconnect, h1],
    by simp [websocket_cleanup, h2, h3, h4],
    Registry.countKey_insert reg aid v h5⟩

/-- Witness for the amended C4 at a concrete input: the registry maps A
to the newer session 2; the event-channel disconnect of the older
session 1 removes nothing, the raw-channel cleanup of a handler locally
bound to A erases the entry, and re-inserting A keeps exactly one
entry. -/
theorem c4_witness :
    disconnect [("A", 2)] 1 = [("A", 2)]
    ∧ websocket_cleanup { agent_id := some "A", reg := [("A", 2)] }
        = Registry.erase [("A", 2)] "A"
    ∧ Registry.countKey (Registry.insert [("A", 2)] "A" 2) "A" = 1 :=
  c4_amended_disconnect_cleanup [("A", 2)] 1
    { agent_id := some "A", reg := [("A", 2)] } "A" 2
    (by decide) rfl (by decide) (by decide) (by decide)

/-- Counterexample to C8 as stated: on the raw channel a malformed
frame followed by a well-formed heartbeat produces no reply and no
registry binding and exits the loop through the exception path, so the
handler did not keep receiving; the same heartbeat alone is
acknowledged and binds A, showing the lost processing. -/
theorem c8_counterexample :
    websocket_receive_loop 1 "T" { agent_id := none, reg := [] }
        [WsInbound.malformed, WsInbound.msg (some "heartbeat") (some "A")]
      = ({ agent_id := none, reg := [] }, [], LoopExit.errored)
    ∧ websocket_receive_loop 1 "T" { agent_id := none, reg := [] }
        [WsInbound.msg (some "heartbeat") (some "A")]
      = ({ agent_id := some "A", reg := [("A", 1)] },
          [{ topic := "heartbeat_ack", timestamp := "T" }],
          LoopExit.disconnected) := by decide

/-- C8 as amended: on the raw channel a message that fails to decode
terminates the receive loop through the generic exception branch — the
failure is logged, no reply is sent for it, every later frame goes
unprocessed, and the handler proceeds to its exit-path cleanup (so the
connection ends) with the state it had before the bad frame. -/
theorem c8_amended_decode_failure_fatal (ws : Nat) (now : String) (st : WsState)
    (rest : List WsInbound) :
    websocket_receive_loop ws now st (WsInbound.malformed :: rest)
      = (st, [], LoopExit.errored) := rfl

end ApiSvc
